import Mathlib

/-!
# Verification of the auto-ba-agent core

Shallow embedding of the closed-loop analysis state machine of
`agent_graph.py` together with the data profiler (`data_profiler.py`) and
the semantic mapper (`semantic_mapper.py`), with theorems settling the
specification claims about them.

The external text-generation collaborator and the Python `exec` sandbox are
opaque to the repository; they are modelled as oracle functions supplied as
parameters (reply streams indexed by the attempt number, since the remote
collaborator is not required to answer the same prompt identically twice).
Python library primitives (`str.split`, `str.strip`, substring tests,
`json.dumps` round-trips) are modelled by small Lean functions named `py...`.
-/

namespace AutoBA

/-! ## Python string primitives -/

/-- `dropPrefixChars sep s`: `some rest` when `s = sep ++ rest`. -/
def dropPrefixChars : List Char → List Char → Option (List Char)
  | [], s => some s
  | _ :: _, [] => Option.none
  | p :: ps, c :: cs => if c = p then dropPrefixChars ps cs else Option.none

/-- Splitting a character list on the leftmost non-overlapping occurrences
of a (non-empty) separator, accumulating the current field in reverse.
The fuel argument only forces structural termination: every step consumes
at least one character, so `s.length + 1` fuel is always enough and the
zero-fuel equation is never exercised by `pySplit`. -/
def splitChunksFuel (sep : List Char) : Nat → List Char → List Char → List (List Char)
  | 0, s, acc => [acc.reverse ++ s]
  | _ + 1, [], acc => [acc.reverse]
  | fuel + 1, c :: cs, acc =>
    match dropPrefixChars sep (c :: cs) with
    | some rest => acc.reverse :: splitChunksFuel sep fuel rest []
    | Option.none => splitChunksFuel sep fuel cs (c :: acc)

/-- Python `str.split(sep)` for a non-empty separator: the fields between
the leftmost non-overlapping occurrences of `sep` (the list has one more
element than the number of occurrences of `sep` in `s`).  Python raises on
an empty separator; no call site passes one (the convention `[s]` below
keeps the function total). -/
def pySplit (s sep : String) : List String :=
  if sep = "" then [s]
  else (splitChunksFuel sep.data (s.data.length + 1) s.data []).map String.mk

/-- Safe list indexing for the guarded `split(...)[i]` accesses of the
source (every such access in the source is guarded by an `in` test that
makes the index valid). -/
def pyIdx (l : List String) (i : Nat) : String :=
  l.getD i ""

/-- Python `sub in s` (substring containment).  For a non-empty `sub`,
`s.split(sub)` has at least two fields iff `sub` occurs in `s`; Python
defines `"" in s` as `True`. -/
def pyIn (sub s : String) : Bool :=
  sub = "" || 1 < (pySplit s sub).length

/-- Python `str.strip()`: drop leading and trailing whitespace. -/
def pyStrip (s : String) : String :=
  String.mk (((s.data.dropWhile Char.isWhitespace).reverse.dropWhile Char.isWhitespace).reverse)

/-- Python `table_name.split("_", 1)[-1]`: everything after the first
underscore (the source only evaluates this under an `"_" in table_name`
guard). -/
def pySplitFirstRest (s sep : String) : String :=
  String.intercalate sep ((pySplit s sep).tail)

/-! ## Numeric rendering helpers

Python renders floats in `get_profile_summary` with `:.2%` and `:.2f`
format specs, which round half-to-even.  The numeric values themselves are
modelled as exact rationals, so the formatting is modelled as exact
rational half-even rounding followed by fixed-point decimal rendering. -/

/-- Round a rational to the nearest integer, ties to the even integer
(the rounding used by Python float formatting). -/
def roundHalfEven (q : ℚ) : ℤ :=
  let f : ℤ := ⌊q⌋
  let frac : ℚ := q - f
  if frac < 1/2 then f
  else if 1/2 < frac then f + 1
  else if f % 2 = 0 then f else f + 1

/-- Render a rational with exactly two decimal places (Python `:.2f`). -/
def renderFixed2 (q : ℚ) : String :=
  let n : ℤ := roundHalfEven (q * 100)
  let sgn : String := if n < 0 then "-" else ""
  let m : Nat := n.natAbs
  sgn ++ toString (m / 100) ++ "." ++ (if m % 100 < 10 then "0" else "") ++ toString (m % 100)

/-- Python `:.2%`: multiply by 100, two decimals, percent sign. -/
def renderPercent2 (q : ℚ) : String :=
  renderFixed2 (q * 100) ++ "%"

/-- Python `round(x, 4)` on the (exact) value. -/
def pyRound4 (q : ℚ) : ℚ :=
  (roundHalfEven (q * 10000) : ℚ) / 10000

/-! ## Data profiler (`data_profiler.py`)

A pandas cell is either a number, a string, or missing (`NaN`/`None`);
a `Series` is a named column of cells with a dtype string.  `len(df)` is
the number of rows of the frame. -/

/-- A non-null pandas cell value. -/
inductive PyVal where
  | num (q : ℚ)
  | str (s : String)
deriving DecidableEq, Repr

/-- Python `repr` of a cell value, used when sample lists are interpolated
into the profile summary.  Python float repr is modelled by exact rational
rendering. -/
def pyReprVal : PyVal → String
  | PyVal.num q => if q.den = 1 then toString q.num else toString q
  | PyVal.str s => "\x27" ++ s ++ "\x27"

/-- Python `repr` of a list of cell values. -/
def pyReprList (l : List PyVal) : String :=
  "[" ++ String.intercalate ", " (l.map pyReprVal) ++ "]"

/-- A pandas `Series`: column name, dtype string, and cells
(`Option.none` is a null/NaN cell). -/
structure Series where
  name : String
  dtype : String
  values : List (Option PyVal)
deriving DecidableEq, Repr

/-- `pd.api.types.is_numeric_dtype`, decided on the dtype string. -/
def isNumericDtype (d : String) : Bool :=
  d = "int64" || d = "float64" || d = "int32" || d = "float32" || d = "int16" || d = "int8" || d = "uint64" || d = "bool"

/-- A pandas `DataFrame`: its row count (`len(df)`) and its columns in
order. -/
structure PyDataFrame where
  nrows : Nat
  cols : List Series
deriving DecidableEq, Repr

/-- `ColumnProfile` (pydantic model of `data_profiler.py`). -/
structure ColumnProfile where
  name : String
  dtype : String
  null_rate : ℚ
  unique_count : Nat
  sample_values : List PyVal
  min_value : Option ℚ := Option.none
  max_value : Option ℚ := Option.none
  mean_value : Option ℚ := Option.none
deriving DecidableEq, Repr

/-- `TableProfile` (pydantic model of `data_profiler.py`). -/
structure TableProfile where
  table_name : String
  sheet_name : String
  row_count : Nat
  column_count : Nat
  columns : List ColumnProfile
deriving DecidableEq, Repr

/-- The non-null cells of a series (`series.dropna()`). -/
def validValues (s : Series) : List PyVal :=
  s.values.filterMap id

/-- Distinct elements in first-seen order (accumulator holds the already
seen elements). -/
def firstSeenAux (seen : List PyVal) : List PyVal → List PyVal
  | [] => []
  | v :: vs => if v ∈ seen then firstSeenAux seen vs else v :: firstSeenAux (v :: seen) vs

/-- Distinct elements of a list in first-seen order. -/
def firstSeen (l : List PyVal) : List PyVal :=
  firstSeenAux [] l

/-- Number of occurrences of a value in a list. -/
def countOcc (l : List PyVal) (v : PyVal) : Nat :=
  (l.filter (fun w => w = v)).length

/-- `series.nunique()`: number of distinct non-null values. -/
def pyNunique (s : Series) : Nat :=
  (firstSeen (validValues s)).length

/-- Stable insertion into a list sorted by strictly descending `cnt`:
`v` goes after every element whose count is at least `cnt v`. -/
def insertByCountDesc (cnt : PyVal → Nat) (v : PyVal) : List PyVal → List PyVal
  | [] => [v]
  | w :: ws => if cnt w < cnt v then v :: w :: ws else w :: insertByCountDesc cnt v ws

/-- Stable sort by descending count (left fold of stable insertions, so
ties keep their incoming order). -/
def sortByCountDesc (cnt : PyVal → Nat) (l : List PyVal) : List PyVal :=
  l.foldl (fun acc v => insertByCountDesc cnt v acc) []

/-- `valid_values.value_counts().head(n).index.tolist()`: the distinct
non-null values ordered by descending frequency (stable, so ties keep
first-seen order), truncated to the sample size. -/
def valueCountsHead (n : Nat) (valid : List PyVal) : List PyVal :=
  (sortByCountDesc (countOcc valid) (firstSeen valid)).take n

/-- The numeric contents of a list of cells. -/
def numsOf (l : List PyVal) : List ℚ :=
  l.filterMap (fun v => match v with | PyVal.num q => some q | PyVal.str _ => Option.none)

/-- Minimum of a list of rationals (`valid_values.min()`; only used on
non-empty lists). -/
def listMin : List ℚ → ℚ
  | [] => 0
  | [q] => q
  | q :: r :: t => min q (listMin (r :: t))

/-- Maximum of a list of rationals (`valid_values.max()`). -/
def listMax : List ℚ → ℚ
  | [] => 0
  | [q] => q
  | q :: r :: t => max q (listMax (r :: t))

/-- Mean of a list of rationals (`valid_values.mean()`). -/
def listMean (l : List ℚ) : ℚ :=
  l.sum / l.length

/-- `DataProfiler.profile_column`: null rate over the full column,
distinct count, top-frequency sampling, and numeric statistics computed
only over non-null values of numeric columns. -/
def profile_column (sample_size : Nat) (s : Series) : ColumnProfile :=
  let null_rate : ℚ :=
    if 0 < s.values.length then
      ((s.values.filter (fun v => v = Option.none)).length : ℚ) / (s.values.length : ℚ)
    else 0
  let valid := validValues s
  let sample_values := if 0 < valid.length then valueCountsHead sample_size valid else []
  let stats : Option ℚ × Option ℚ × Option ℚ :=
    if isNumericDtype s.dtype then
      if 0 < valid.length then
        (some (listMin (numsOf valid)), some (listMax (numsOf valid)), some (listMean (numsOf valid)))
      else (Option.none, Option.none, Option.none)
    else (Option.none, Option.none, Option.none)
  { name := s.name
    dtype := s.dtype
    null_rate := pyRound4 null_rate
    unique_count := pyNunique s
    sample_values := sample_values
    min_value := stats.1
    max_value := stats.2.1
    mean_value := stats.2.2 }

/-- `DataProfiler.profile_table`. -/
def profile_table (sample_size : Nat) (table_name : String) (df : PyDataFrame) : TableProfile :=
  { table_name := table_name
    sheet_name := if pyIn "_" table_name then pySplitFirstRest table_name "_" else table_name
    row_count := df.nrows
    column_count := df.cols.length
    columns := df.cols.map (profile_column sample_size) }

/-- The profiler state: the configured sample size, the loaded tables
(`self.tables`, an insertion-ordered dict), and the computed profiles
(`self.profiles`). -/
structure ProfilerState where
  sample_size : Nat
  tables : List (String × PyDataFrame)
  profiles : List TableProfile

/-- `DataProfiler.profile_all_tables` (the part that sets `self.profiles`). -/
def profile_all_tables (p : ProfilerState) : ProfilerState :=
  { p with profiles := p.tables.map (fun t => profile_table p.sample_size t.1 t.2) }

/-- The lines emitted by `get_profile_summary` for one column. -/
def columnSummaryLines (col : ColumnProfile) : List String :=
  ["  - " ++ col.name ++ " (" ++ col.dtype ++ ")",
   "    空值率: " ++ renderPercent2 col.null_rate ++ ", 唯一值数: " ++ toString col.unique_count,
   "    样本值: " ++ pyReprList (col.sample_values.take 5)]
  ++ (match col.min_value, col.max_value, col.mean_value with
      | some mn, mx, me =>
        ["    数值范围: [" ++ renderFixed2 mn ++ ", " ++ renderFixed2 (mx.getD 0) ++ "], 均值: " ++ renderFixed2 (me.getD 0)]
      | Option.none, _, _ => [])
  ++ [""]

/-- The lines emitted by `get_profile_summary` for one table. -/
def tableSummaryLines (profile : TableProfile) : List String :=
  ["## 表: " ++ profile.table_name,
   "行数: " ++ toString profile.row_count ++ ", 列数: " ++ toString profile.column_count ++ "\n"]
  ++ (profile.columns.flatMap columnSummaryLines)

/-- `DataProfiler.get_profile_summary`: the human-readable profile text
passed to the collaborator prompts. -/
def get_profile_summary (p : ProfilerState) : String :=
  String.intercalate "\n"
    (["=== 数据探测结果 ===\n"] ++ p.profiles.flatMap tableSummaryLines)

/-- `sum(len(df) for df in tables.values())`: combined row count of all
loaded input tables (computed inside `execution_verification`). -/
def totalInputRows (p : ProfilerState) : Nat :=
  (p.tables.map (fun t => t.2.nrows)).sum

/-! ## Semantic mapper (`semantic_mapper.py`) -/

/-- `SemanticNode` (pydantic model). -/
structure SemanticNode where
  table : String
  description : String
deriving DecidableEq, Repr

/-- `SemanticEdge` (pydantic model); `confidence` is a float, modelled as
an exact rational. -/
structure SemanticEdge where
  from_col : String
  to_col : String
  logic : String
  confidence : ℚ
deriving DecidableEq, Repr

/-- `SemanticMap` (pydantic model). -/
structure SemanticMap where
  nodes : List SemanticNode
  edges : List SemanticEdge
deriving DecidableEq, Repr

/-- The collaborator and library calls made by `SemanticMapper`:
`reply system user` is the content of the text-generation response, and
`parseMap` models `SemanticMap(**json.loads(content))` — `Except.error e`
when either call raises, carrying `str(e)`. -/
structure MapperCollab where
  reply : String → String → String
  parseMap : String → Except String SemanticMap

/-- Code-fence stripping shared by the mapper and the agent's code
generation: prefer a ```json fence, else any ``` fence, else the raw
content. -/
def stripJsonFence (content : String) : String :=
  if pyIn "```json" content then
    pyStrip (pyIdx (pySplit (pyIdx (pySplit content "```json") 1) "```") 0)
  else if pyIn "```" content then
    pyStrip (pyIdx (pySplit (pyIdx (pySplit content "```") 1) "```") 0)
  else content

/-- System prompt of `generate_semantic_map` (JSON braces escaped). -/
def mapperSystemPrompt : String :=
  "你是一个数据关系分析专家。你的任务是：\n\n1. 分析多张表的列名、数据类型和样本值\n2. 推断表之间可能存在的关联关系（JOIN 键）\n3. 输出 JSON 格式的语义关系图\n\n输出格式：\n\x7b\n  \"nodes\": [\n    \x7b\"table\": \"表名\", \"description\": \"表的业务含义\"\x7d\n  ],\n  \"edges\": [\n    \x7b\"from_col\": \"表A.列X\", \"to_col\": \"表B.列Y\", \"logic\": \"JOIN\", \"confidence\": 0.9\x7d\n  ]\n\x7d\n\n注意：\n- confidence 取值 0-1，表示关联的置信度\n- 只输出可能的关联，不要编造\n- 考虑列名相似度、数据类型匹配、样本值重叠度\n"

/-- User prompt of `generate_semantic_map`. -/
def mapperUserPrompt (profile_summary : String) : String :=
  "请分析以下数据表，推断它们之间的关联关系：\n\n" ++ profile_summary ++ "\n\n请输出 JSON 格式的语义关系图。"

/-- The fence-stripped reply payload `generate_semantic_map` parses. -/
def mapperContent (c : MapperCollab) (profile_summary : String) : String :=
  stripJsonFence (c.reply mapperSystemPrompt (mapperUserPrompt profile_summary))

/-- `SemanticMapper.generate_semantic_map`: returns the raised error or
the parsed map, together with the new value of `self.semantic_map`
(the stored map is only assigned on success). -/
def generate_semantic_map (c : MapperCollab) (stored : Option SemanticMap)
    (profile_summary : String) : Except String SemanticMap × Option SemanticMap :=
  match c.parseMap (mapperContent c profile_summary) with
  | Except.ok m => (Except.ok m, some m)
  | Except.error e =>
      (Except.error ("LLM 返回的 JSON 格式错误: " ++ e ++ "\n内容: " ++ mapperContent c profile_summary), stored)

/-- Table name of an edge endpoint: `col.split(".")[0]`. -/
def endpointTable (col : String) : String :=
  pyIdx (pySplit col ".") 0

/-- The node filter of `get_relevant_subgraph`:
`any(table in node.table for table in mentioned_tables)`. -/
def nodeMentioned (mentioned : List String) (node : SemanticNode) : Bool :=
  mentioned.any (fun t => pyIn t node.table)

/-- The pure projection inside `get_relevant_subgraph` (the part after
the unset-map guard). -/
def relevantSubgraph (m : SemanticMap) (mentioned : List String) : SemanticMap :=
  let relevant_nodes := m.nodes.filter (nodeMentioned mentioned)
  let relevant_tables_set := relevant_nodes.map (fun n => n.table)
  let relevant_edges := m.edges.filter
    (fun e => decide (endpointTable e.from_col ∈ relevant_tables_set)
      && decide (endpointTable e.to_col ∈ relevant_tables_set))
  { nodes := relevant_nodes, edges := relevant_edges }

/-- `SemanticMapper.get_relevant_subgraph`: raises when no map was
generated yet, otherwise the pure projection.  `intent` is received but
unused by the source. -/
def get_relevant_subgraph (stored : Option SemanticMap) (intent : String)
    (mentioned_tables : List String) : Except String SemanticMap :=
  match stored with
  | Option.none => Except.error "尚未生成 semantic_map，请先调用 generate_semantic_map()"
  | some m => Except.ok (relevantSubgraph m mentioned_tables)

/-- The dictionary produced by `SemanticMapper.to_dict`: either the empty
dict `\x7b\x7d` or `model_dump()` of the stored map. -/
inductive MapDict where
  | emptyDict
  | dumped (m : SemanticMap)
deriving DecidableEq, Repr

/-- `SemanticMapper.to_dict`. -/
def to_dict (stored : Option SemanticMap) : MapDict :=
  match stored with
  | Option.none => MapDict.emptyDict
  | some m => MapDict.dumped m

/-! ## Analysis state machine (`agent_graph.py`) -/

/-- `result.to_dict()` of a tabular result: a transport-neutral keyed
structure mapping each column name to its indexed values (both produced
by the opaque sandbox, so the cell renderings are strings). -/
def DFDict : Type :=
  List (String × List String)

instance : DecidableEq DFDict :=
  inferInstanceAs (DecidableEq (List (String × List String)))

/-- The value stored in `state["execution_result"]` on success: either
the `to_dict()` of a DataFrame or the `str()` of a scalar result. -/
inductive ExecResult where
  | table (d : DFDict)
  | text (s : String)
deriving DecidableEq

/-- The outcome of `exec(code, exec_globals)` followed by
`exec_globals.get("result")`, as observed by `execution_verification`:
the code raised, or it left `result` as `None`, or it bound a DataFrame
(with its row count and `to_dict()`), or it bound some other value
(with its `str()`). -/
inductive ExecOutcome where
  | exn (name msg trace : String)
  | pyNone
  | df (rows : Nat) (d : DFDict)
  | scalar (s : String)
deriving DecidableEq

/-- Python `str()` of a `to_dict()` dictionary (keys quoted, values as
produced by the sandbox). -/
def pyStrDict (d : DFDict) : String :=
  "\x7b" ++ String.intercalate ", "
    (d.map (fun kv => "\x27" ++ kv.1 ++ "\x27: " ++ String.intercalate ", " kv.2)) ++ "\x7d"

/-- Python `str()` of `state["execution_result"]` as interpolated by
`format_answer`. -/
def pyStrResult : Option ExecResult → String
  | Option.none => "None"
  | some (ExecResult.table d) => pyStrDict d
  | some (ExecResult.text s) => s

/-- `AgentState` of `agent_graph.py` (the `tables` and `messages` fields
are initialised empty by `analyze` and never read by any node, so they
are omitted). -/
structure AgentState where
  query : String
  profile_summary : String
  semantic_map : MapDict
  intent : String
  plan : String
  code : String
  execution_result : Option ExecResult
  error : String
  retry_count : Nat
  max_retries : Nat
  answer : String
deriving DecidableEq

/-- The opaque collaborators of one `BAAgent` run.  The text-generation
replies are streams indexed by the attempt number (the remote model need
not answer an identical prompt identically twice); each reply function
receives the system prompt and the user content actually sent.
`jsonLoadsDumps` models `json.dumps(json.loads(content), ensure_ascii=False)`
(`Option.none` when `json.loads` raises); `dumpsMapDict` models
`json.dumps(state["semantic_map"], ensure_ascii=False, indent=2)`;
`execRun` models running `exec` on the generated code over the loaded
tables at the given attempt. -/
structure Collab where
  intentReply : String → String → String
  planReply : Nat → String → String → String
  codeReply : Nat → String → String → String
  jsonLoadsDumps : String → Option String
  dumpsMapDict : MapDict → String
  execRun : Nat → String → ExecOutcome

/-- System prompt of `intent_routing` (JSON braces escaped). -/
def intentSystemPrompt : String :=
  "你是一个商业分析意图识别专家。分析用户的查询，识别：\n\n1. 分析类型：\n   - 描述性分析（统计、汇总）\n   - 诊断性分析（找原因、对比）\n   - 关联性分析（跨表关联）\n\n2. 涉及的表和字段\n\n3. 需要的关联路径\n\n输出 JSON 格式：\n\x7b\n  \"analysis_type\": \"描述性分析\",\n  \"mentioned_tables\": [\"表A\", \"表B\"],\n  \"key_fields\": [\"字段1\", \"字段2\"],\n  \"description\": \"简要描述用户意图\"\n\x7d\n"

/-- User prompt of `intent_routing`. -/
def intentUserPrompt (profile_summary query : String) : String :=
  "数据概览：\n" ++ profile_summary ++ "\n\n用户问题：" ++ query ++ "\n\n请分析用户意图。"

/-- The raw reply `intent_routing` receives from the collaborator. -/
def intentRawReply (c : Collab) (s : AgentState) : String :=
  c.intentReply intentSystemPrompt (intentUserPrompt s.profile_summary s.query)

/-- The reply after the ```json fence extraction of `intent_routing`
(`content.split("```json")[1].split("```")[0].strip()` when a fence is
present, the raw reply otherwise). -/
def intentStripped (c : Collab) (s : AgentState) : String :=
  if pyIn "```json" (intentRawReply c s) then
    pyStrip (pyIdx (pySplit (pyIdx (pySplit (intentRawReply c s) "```json") 1) "```") 0)
  else intentRawReply c s

/-- `BAAgent.intent_routing`: ask for the classification, strip a
```json fence if present, keep the canonical re-dump on parse success and
the (stripped) text itself on parse failure. -/
def intent_routing (c : Collab) (s : AgentState) : AgentState :=
  match c.jsonLoadsDumps (intentStripped c s) with
  | some dumped => { s with intent := dumped }
  | Option.none => { s with intent := intentStripped c s }

/-- System prompt of `logical_planning`. -/
def planningSystemPrompt : String :=
  "你是一个数据分析逻辑规划专家。基于用户意图和语义关系图，规划分析步骤。\n\n输出格式（伪代码）：\nPlan:\n1. 过滤表 A 的条件\n2. 关联表 B (使用 A.col_x = B.col_y)\n3. 计算聚合指标\n4. 排序/筛选结果\n\n注意：\n- 优先使用 left join 保留主表数据\n- 明确 join 键\n- 避免不必要的表关联\n"

/-- User prompt of `logical_planning`: the content sent to the
collaborator is built from `intent`, the dumped `semantic_map` and
`query` — and from nothing else in the state. -/
def planningUserPrompt (intent semantic_map_str query : String) : String :=
  "用户意图：\n" ++ intent ++ "\n\n语义关系图：\n" ++ semantic_map_str ++ "\n\n用户问题：" ++ query ++ "\n\n请输出逻辑规划。"

/-- The user content `logical_planning` sends for a given state. -/
def planningContent (c : Collab) (s : AgentState) : String :=
  planningUserPrompt s.intent (c.dumpsMapDict s.semantic_map) s.query

/-- `BAAgent.logical_planning` at attempt `k`. -/
def logical_planning (c : Collab) (k : Nat) (s : AgentState) : AgentState :=
  { s with plan := c.planReply k planningSystemPrompt (planningContent c s) }

/-- System prompt of `code_generation` (braces and apostrophes escaped). -/
def codegenSystemPrompt : String :=
  "你是一个 Python/Pandas 代码生成专家。基于逻辑规划生成可执行代码。\n\n要求：\n1. 使用 pandas 进行数据处理\n2. 表已加载为 DataFrame，变量名为 `tables[\x27表名\x27]`\n3. 优先使用 pd.merge(how=\x27left\x27)\n4. 最终结果赋值给 `result` 变量\n5. 只输出 Python 代码，不要解释\n\n示例：\n```python\n# 获取表\ndf_orders = tables[\x27orders\x27]\ndf_products = tables[\x27products\x27]\n\n# 过滤 2026 年数据\ndf_2026 = df_orders[df_orders[\x27year\x27] == 2026]\n\n# 关联产品表\ndf_merged = pd.merge(df_2026, df_products, left_on=\x27product_id\x27, right_on=\x27id\x27, how=\x27left\x27)\n\n# 计算销售额\ndf_merged[\x27total_sales\x27] = df_merged[\x27quantity\x27] * df_merged[\x27price\x27]\n\n# 汇总\nresult = df_merged[\x27total_sales\x27].sum()\n```\n"

/-- User prompt of `code_generation`. -/
def codegenUserPrompt (profile_summary plan : String) : String :=
  "数据概览：\n" ++ profile_summary ++ "\n\n逻辑规划：\n" ++ plan ++ "\n\n请生成 Python 代码。"

/-- `BAAgent.code_generation` at attempt `k`: generate, then strip a
```python fence, else a plain ``` fence. -/
def code_generation (c : Collab) (k : Nat) (s : AgentState) : AgentState :=
  let content := c.codeReply k codegenSystemPrompt (codegenUserPrompt s.profile_summary s.plan)
  let content2 :=
    if pyIn "```python" content then
      pyStrip (pyIdx (pySplit (pyIdx (pySplit content "```python") 1) "```") 0)
    else if pyIn "```" content then
      pyStrip (pyIdx (pySplit (pyIdx (pySplit content "```") 1) "```") 0)
    else content
  { s with code := content2 }

/-- The cartesian-product error message of `execution_verification`. -/
def cartesianMsg (result_rows original_rows : Nat) : String :=
  "可能产生了笛卡尔积：结果行数 " ++ toString result_rows ++ " 远大于原始行数 " ++ toString original_rows

/-- The missing-result error message of `execution_verification`. -/
def missingResultMsg : String :=
  "代码未生成 result 变量"

/-- `BAAgent.execution_verification` at attempt `k`:
run the generated code, then classify — missing output binding, suspected
cartesian product (tabular result with more than twice the combined input
rows), runtime exception, or success. -/
def execution_verification (c : Collab) (k : Nat) (original_rows : Nat)
    (s : AgentState) : AgentState :=
  match c.execRun k s.code with
  | ExecOutcome.exn name msg trace =>
      { s with error := name ++ ": " ++ msg ++ "\n" ++ trace,
               execution_result := Option.none }
  | ExecOutcome.pyNone =>
      { s with error := missingResultMsg, execution_result := Option.none }
  | ExecOutcome.df rows d =>
      if original_rows * 2 < rows then
        { s with error := cartesianMsg rows original_rows, execution_result := Option.none }
      else
        { s with execution_result := some (ExecResult.table d), error := "" }
  | ExecOutcome.scalar v =>
      { s with execution_result := some (ExecResult.text v), error := "" }

/-- `BAAgent.format_answer`: failure answers embed the error, success
answers embed the execution result. -/
def format_answer (s : AgentState) : AgentState :=
  if s.error ≠ "" then { s with answer := "分析失败：" ++ s.error }
  else { s with answer := "分析结果：\n" ++ pyStrResult s.execution_result }

/-- `BAAgent.should_retry`: the conditional edge out of
`execution_verification`; returns the route label together with the state
(which it increments on the retry route). -/
def should_retry (s : AgentState) : String × AgentState :=
  if s.error = "" then ("success", s)
  else if s.max_retries ≤ s.retry_count then ("give_up", s)
  else ("retry", { s with retry_count := s.retry_count + 1 })

/-- One pass through the `logical_planning → code_generation →
execution_verification` chain at attempt `k`. -/
def attemptNode (c : Collab) (original_rows k : Nat) (s : AgentState) : AgentState :=
  execution_verification c k original_rows (code_generation c k (logical_planning c k s))

/-- The compiled graph from `logical_planning` onwards, with explicit
fuel.  The second component records, per attempt, the user content that
`logical_planning` sent to the collaborator (so its length is the number
of `execution_verification` attempts).  The fuel is always instantiated
with `max_retries - retry_count + 1` (see `runFrom`), which the `retry`
route preserves, so the zero-fuel equation is never exercised. -/
def runFromFuel (c : Collab) (original_rows : Nat) :
    Nat → Nat → AgentState → AgentState × List String
  | 0, _, s => (format_answer s, [])
  | fuel + 1, k, s =>
    let sent := planningContent c s
    let s1 := attemptNode c original_rows k s
    let r := should_retry s1
    if r.1 = "retry" then
      let rest := runFromFuel c original_rows fuel (k + 1) r.2
      (rest.1, sent :: rest.2)
    else (format_answer r.2, [sent])

/-- The graph from `logical_planning` onwards, entered at attempt `k`. -/
def runFrom (c : Collab) (original_rows k : Nat) (s : AgentState) : AgentState × List String :=
  runFromFuel c original_rows (s.max_retries - s.retry_count + 1) k s

/-- `self.graph.invoke(initial_state)`: entry point `intent_routing`,
then the planning/generation/verification loop. -/
def graphInvoke (c : Collab) (original_rows : Nat) (s : AgentState) : AgentState × List String :=
  runFrom c original_rows 0 (intent_routing c s)

/-- The initial state built by `BAAgent.analyze`. -/
def initialState (p : ProfilerState) (stored : Option SemanticMap)
    (max_retries : Nat) (query : String) : AgentState :=
  { query := query
    profile_summary := get_profile_summary p
    semantic_map := to_dict stored
    intent := ""
    plan := ""
    code := ""
    execution_result := Option.none
    error := ""
    retry_count := 0
    max_retries := max_retries
    answer := "" }

/-- `BAAgent.analyze` as the full run (final state plus the planning
contents sent, one per attempt). -/
def analyzeRun (c : Collab) (p : ProfilerState) (stored : Option SemanticMap)
    (max_retries : Nat) (query : String) : AgentState × List String :=
  graphInvoke c (totalInputRows p) (initialState p stored max_retries query)

/-- `BAAgent.analyze`: returns `final_state["answer"]`. -/
def analyze (c : Collab) (p : ProfilerState) (stored : Option SemanticMap)
    (max_retries : Nat) (query : String) : String :=
  (analyzeRun c p stored max_retries query).1.answer

/-! ## Concrete instances used to exercise the theorems -/

/-- A profiler with two loaded tables of 8 and 3 rows (the spec's
end-to-end scenario shape). -/
def ordersProfiler : ProfilerState :=
  { sample_size := 10
    tables := [("orders", { nrows := 8, cols := [] }), ("products", { nrows := 3, cols := [] })]
    profiles := [] }

/-- An empty profiler (no tables loaded). -/
def emptyProfiler : ProfilerState :=
  { sample_size := 10, tables := [], profiles := [] }

/-- A collaborator whose generated code always yields a 100-row
DataFrame. -/
def c2Collab : Collab :=
  { intentReply := fun _ _ => "intent"
    planReply := fun _ _ _ => "plan"
    codeReply := fun _ _ _ => "code"
    jsonLoadsDumps := fun _ => Option.none
    dumpsMapDict := fun _ => "map"
    execRun := fun _ _ => ExecOutcome.df 100 [] }

/-- The initial state of a run over `ordersProfiler`. -/
def c2State : AgentState :=
  initialState ordersProfiler Option.none 3 "总收入"

/-- A collaborator whose first attempt leaves `result` unset and whose
second attempt succeeds with a scalar. -/
def c3Collab : Collab :=
  { intentReply := fun _ _ => "intent-reply"
    planReply := fun _ _ _ => "plan-reply"
    codeReply := fun _ _ _ => "code-reply"
    jsonLoadsDumps := fun _ => Option.none
    dumpsMapDict := fun _ => "map-json"
    execRun := fun k _ => if k = 0 then ExecOutcome.pyNone else ExecOutcome.scalar "42" }

/-- The full run of `c3Collab` over `ordersProfiler` with the default
retry budget. -/
def c3Run : AgentState × List String :=
  analyzeRun c3Collab ordersProfiler Option.none 3 "总收入是多少"

/-- A collaborator whose generated code never produces the output
binding. -/
def c4Collab : Collab :=
  { intentReply := fun _ _ => "intent"
    planReply := fun _ _ _ => "plan"
    codeReply := fun _ _ _ => "code"
    jsonLoadsDumps := fun _ => Option.none
    dumpsMapDict := fun _ => "map"
    execRun := fun _ _ => ExecOutcome.pyNone }

/-- A collaborator whose intent reply wraps ill-formed JSON in a
```json fence (`json.loads` raises on the fenced payload). -/
def c5FenceCollab : Collab :=
  { intentReply := fun _ _ => "前言```json\n\x7bbad\n```后记"
    planReply := fun _ _ _ => "plan"
    codeReply := fun _ _ _ => "code"
    jsonLoadsDumps := fun _ => Option.none
    dumpsMapDict := fun _ => "map"
    execRun := fun _ _ => ExecOutcome.scalar "1" }

/-- A collaborator whose intent reply is fence-free prose that is not
JSON. -/
def c5PlainCollab : Collab :=
  { intentReply := fun _ _ => "这不是 JSON"
    planReply := fun _ _ _ => "plan"
    codeReply := fun _ _ _ => "code"
    jsonLoadsDumps := fun _ => Option.none
    dumpsMapDict := fun _ => "map"
    execRun := fun _ _ => ExecOutcome.scalar "1" }

/-- The state both c5 collaborators are invoked on. -/
def c5State : AgentState :=
  initialState emptyProfiler Option.none 3 "查询"

/-- A mapper collaborator whose reply never parses under the node/edge
shape. -/
def c6Mapper : MapperCollab :=
  { reply := fun _ _ => "不是关系图"
    parseMap := fun _ => Except.error "ValidationError" }

/-- The spec's demonstration nodes and edge for subgraph extraction. -/
def ordersNode : SemanticNode :=
  { table := "orders", description := "订单表" }

def productsNode : SemanticNode :=
  { table := "products", description := "产品表" }

def customersNode : SemanticNode :=
  { table := "customers", description := "客户表" }

def ordersProductsEdge : SemanticEdge :=
  { from_col := "orders.product_id", to_col := "products.id", logic := "JOIN", confidence := 9/10 }

def demoMap : SemanticMap :=
  { nodes := [ordersNode, productsNode, customersNode], edges := [ordersProductsEdge] }

/-- The kept table-name set of the subgraph projection. -/
def keptTables (m : SemanticMap) (mentioned : List String) : List String :=
  (m.nodes.filter (nodeMentioned mentioned)).map (fun n => n.table)

/-- A collaborator whose generated code always raises at execution. -/
def c1Collab : Collab :=
  { intentReply := fun _ _ => "intent"
    planReply := fun _ _ _ => "plan"
    codeReply := fun _ _ _ => "code"
    jsonLoadsDumps := fun _ => Option.none
    dumpsMapDict := fun _ => "map"
    execRun := fun _ _ => ExecOutcome.exn "KeyError" "bad column" "trace" }

/-- An initial state with the default retry budget. -/
def c1State : AgentState :=
  initialState emptyProfiler Option.none 3 "问题"

/-- An empty table. -/
def c8Df : PyDataFrame :=
  { nrows := 0, cols := [] }

/-- An entirely-null numeric column. -/
def c8Series : Series :=
  { name := "age", dtype := "float64", values := [Option.none, Option.none] }

/-! ## Helper lemmas -/

theorem string_append_eq_empty_iff (a b : String) : a ++ b = "" ↔ a = "" ∧ b = "" := by
  constructor
  · intro h
    have hd := congrArg String.data h
    simp [String.data_append] at hd
    exact ⟨String.ext hd.1, String.ext hd.2⟩
  · rintro ⟨rfl, rfl⟩
    rfl

theorem cartesianMsg_ne_empty (rows n : Nat) : cartesianMsg rows n ≠ "" := by
  intro h
  have h1 := ((string_append_eq_empty_iff _ _).1 h).1
  have h2 := ((string_append_eq_empty_iff _ _).1 h1).1
  have h3 := ((string_append_eq_empty_iff _ _).1 h2).1
  exact absurd h3 (by decide)

theorem exn_error_ne_empty (name msg trace : String) :
    name ++ ": " ++ msg ++ "\n" ++ trace ≠ "" := by
  intro h
  have h1 := ((string_append_eq_empty_iff _ _).1 h).1
  have h2 := ((string_append_eq_empty_iff _ _).1 h1).1
  have h3 := ((string_append_eq_empty_iff _ _).1 h2).1
  have h4 := ((string_append_eq_empty_iff _ _).1 h3).2
  exact absurd h4 (by decide)

/-- Sanity of the Python split model: leftmost non-overlapping
occurrences, one more field than occurrences. -/
theorem pySplit_examples :
    pySplit "aaa" "aa" = ["", "a"]
    ∧ pySplit "abc" "b" = ["a", "c"]
    ∧ pySplit "abc" "x" = ["abc"]
    ∧ pySplit "ab" "ab" = ["", ""]
    ∧ pySplit "x```json\ny\n```z" "```json" = ["x", "\ny\n```z"]
    ∧ pyStrip "\n y x \n" = "y x"
    ∧ pySplit "orders.product_id" "." = ["orders", "product_id"] := by
  refine ⟨?_, ?_, ?_, ?_, ?_, ?_, ?_⟩ <;> decide

/-! ## Helper lemmas about the state machine -/

theorem intent_routing_retry_count (c : Collab) (s : AgentState) :
    (intent_routing c s).retry_count = s.retry_count := by
  unfold intent_routing
  cases c.jsonLoadsDumps (intentStripped c s) <;> rfl

theorem intent_routing_max_retries (c : Collab) (s : AgentState) :
    (intent_routing c s).max_retries = s.max_retries := by
  unfold intent_routing
  cases c.jsonLoadsDumps (intentStripped c s) <;> rfl

theorem execution_verification_retry_count (c : Collab) (k n : Nat) (s : AgentState) :
    (execution_verification c k n s).retry_count = s.retry_count := by
  unfold execution_verification
  cases c.execRun k s.code <;> first | rfl | (dsimp only; split_ifs <;> rfl)

theorem execution_verification_max_retries (c : Collab) (k n : Nat) (s : AgentState) :
    (execution_verification c k n s).max_retries = s.max_retries := by
  unfold execution_verification
  cases c.execRun k s.code <;> first | rfl | (dsimp only; split_ifs <;> rfl)

theorem attemptNode_retry_count (c : Collab) (n k : Nat) (s : AgentState) :
    (attemptNode c n k s).retry_count = s.retry_count := by
  unfold attemptNode
  rw [execution_verification_retry_count]
  rfl

theorem attemptNode_max_retries (c : Collab) (n k : Nat) (s : AgentState) :
    (attemptNode c n k s).max_retries = s.max_retries := by
  unfold attemptNode
  rw [execution_verification_max_retries]
  rfl

theorem should_retry_fst_eq_retry_iff (s : AgentState) :
    (should_retry s).1 = "retry" ↔ s.error ≠ "" ∧ s.retry_count < s.max_retries := by
  unfold should_retry
  split_ifs with h1 h2 <;> simp_all

theorem should_retry_snd_of_retry (s : AgentState) (h : (should_retry s).1 = "retry") :
    (should_retry s).2 = { s with retry_count := s.retry_count + 1 } := by
  unfold should_retry at h ⊢
  split_ifs at h ⊢ <;> simp_all

theorem should_retry_snd_of_not_retry (s : AgentState) (h : (should_retry s).1 ≠ "retry") :
    (should_retry s).2 = s := by
  unfold should_retry at h ⊢
  split_ifs at h ⊢ <;> simp_all

theorem should_retry_retry_count_mono (s : AgentState) :
    s.retry_count ≤ (should_retry s).2.retry_count := by
  unfold should_retry
  split_ifs <;> simp

theorem format_answer_error (s : AgentState) :
    (format_answer s).error = s.error := by
  unfold format_answer
  split_ifs <;> rfl

theorem format_answer_retry_count (s : AgentState) :
    (format_answer s).retry_count = s.retry_count := by
  unfold format_answer
  split_ifs <;> rfl

theorem format_answer_execution_result (s : AgentState) :
    (format_answer s).execution_result = s.execution_result := by
  unfold format_answer
  split_ifs <;> rfl

theorem format_answer_answer (s : AgentState) :
    ((format_answer s).error ≠ "" → (format_answer s).answer = "分析失败：" ++ (format_answer s).error)
    ∧ ((format_answer s).error = "" →
        (format_answer s).answer =
          "分析结果：\n" ++ pyStrResult (format_answer s).execution_result) := by
  unfold format_answer
  split_ifs with h <;> exact ⟨fun h2 => by simp_all, fun h2 => by simp_all⟩

/-- `retry_count` never decreases across the loop. -/
theorem runFromFuel_retry_count_mono (c : Collab) (n : Nat) :
    ∀ (fuel k : Nat) (s : AgentState),
      s.retry_count ≤ ((runFromFuel c n fuel k s).1).retry_count := by
  intro fuel
  induction fuel with
  | zero =>
    intro k s
    simp [runFromFuel, format_answer_retry_count]
  | succ fuel ih =>
    intro k s
    unfold runFromFuel
    dsimp only
    split_ifs with h
    · dsimp only
      have h1 : s.retry_count ≤ ((should_retry (attemptNode c n k s)).2).retry_count := by
        rw [← attemptNode_retry_count c n k s]
        exact should_retry_retry_count_mono _
      exact le_trans h1 (ih (k + 1) _)
    · dsimp only
      rw [should_retry_snd_of_not_retry _ h, format_answer_retry_count, attemptNode_retry_count]

/-- `retry_count` never exceeds `max_retries` across the loop. -/
theorem runFromFuel_retry_count_le (c : Collab) (n : Nat) :
    ∀ (fuel k : Nat) (s : AgentState), s.retry_count ≤ s.max_retries →
      ((runFromFuel c n fuel k s).1).retry_count ≤ s.max_retries := by
  intro fuel
  induction fuel with
  | zero =>
    intro k s h
    simpa [runFromFuel, format_answer_retry_count] using h
  | succ fuel ih =>
    intro k s h
    unfold runFromFuel
    dsimp only
    split_ifs with hr
    · dsimp only
      rw [should_retry_snd_of_retry _ hr]
      have hlt := (should_retry_fst_eq_retry_iff _).1 hr
      have hrc := attemptNode_retry_count c n k s
      have hmr := attemptNode_max_retries c n k s
      have hb : ({ attemptNode c n k s with
          retry_count := (attemptNode c n k s).retry_count + 1 } : AgentState).retry_count ≤
          ({ attemptNode c n k s with
          retry_count := (attemptNode c n k s).retry_count + 1 } : AgentState).max_retries := by
        dsimp
        omega
      have hrec := ih (k + 1) _ hb
      dsimp at hrec
      omega
    · dsimp only
      rw [should_retry_snd_of_not_retry _ hr, format_answer_retry_count, attemptNode_retry_count]
      exact h

/-- The loop performs at most `fuel` execution attempts. -/
theorem runFromFuel_length_le (c : Collab) (n : Nat) :
    ∀ (fuel k : Nat) (s : AgentState),
      ((runFromFuel c n fuel k s).2).length ≤ fuel := by
  intro fuel
  induction fuel with
  | zero => intro k s; simp [runFromFuel]
  | succ fuel ih =>
    intro k s
    unfold runFromFuel
    dsimp only
    split_ifs with h
    · simpa using ih (k + 1) _
    · simp

/-- Claim C2: when the generated code executes without raising and yields
a tabular result, `execution_verification` sets the non-empty
cartesian-product error and nulls `execution_result` exactly when the
result's row count strictly exceeds twice the combined row count of the
loaded input tables; otherwise it stores the table and clears the error. -/
theorem c2_cartesian_product_guard (c : Collab) (k : Nat) (p : ProfilerState)
    (s : AgentState) (rows : Nat) (d : DFDict)
    (h : c.execRun k s.code = ExecOutcome.df rows d) :
    (totalInputRows p * 2 < rows →
        (execution_verification c k (totalInputRows p) s).error =
          cartesianMsg rows (totalInputRows p)
        ∧ (execution_verification c k (totalInputRows p) s).error ≠ ""
        ∧ (execution_verification c k (totalInputRows p) s).execution_result = Option.none)
    ∧ (rows ≤ totalInputRows p * 2 →
        (execution_verification c k (totalInputRows p) s).error = ""
        ∧ (execution_verification c k (totalInputRows p) s).execution_result =
            some (ExecResult.table d)) := by
  unfold execution_verification
  rw [h]
  constructor
  · intro hgt
    dsimp only
    rw [if_pos hgt]
    exact ⟨rfl, cartesianMsg_ne_empty _ _, rfl⟩
  · intro hle
    dsimp only
    rw [if_neg (by omega)]
    exact ⟨rfl, rfl⟩

theorem c2_cartesian_product_guard_witness :
    c2Collab.execRun 0 c2State.code = ExecOutcome.df 100 []
    ∧ totalInputRows ordersProfiler * 2 < 100
    ∧ (execution_verification c2Collab 0 (totalInputRows ordersProfiler) c2State).error =
        cartesianMsg 100 (totalInputRows ordersProfiler)
    ∧ (execution_verification c2Collab 0 (totalInputRows ordersProfiler) c2State).execution_result =
        Option.none := by
  refine ⟨by decide, by decide, ?_, ?_⟩
  · exact ((c2_cartesian_product_guard c2Collab 0 ordersProfiler c2State 100 []
      (by decide)).1 (by decide)).1
  · exact ((c2_cartesian_product_guard c2Collab 0 ordersProfiler c2State 100 []
      (by decide)).1 (by decide)).2.2

/-- Claim C9: after `execution_verification` the state satisfies the
invariant that `error` is empty iff `execution_result` is non-null
(every error branch nulls the result; every success branch stores one
and clears the error). -/
theorem c9_error_result_invariant (c : Collab) (k n : Nat) (s : AgentState) :
    (execution_verification c k n s).error = "" ↔
      (execution_verification c k n s).execution_result ≠ Option.none := by
  unfold execution_verification
  cases c.execRun k s.code with
  | exn name msg trace =>
    dsimp only
    simp [exn_error_ne_empty name msg trace]
  | pyNone =>
    dsimp only
    simp [missingResultMsg]
  | df rows d =>
    dsimp only
    split_ifs with hgt
    · simp [cartesianMsg_ne_empty]
    · simp
  | scalar v =>
    simp

/-- Claim C8: profiling tolerates degenerate inputs — an empty table
profiles to `row_count = 0`, and an entirely-null column profiles to
`unique_count = 0`, empty `sample_values`, and omitted (`none`, not zero)
numeric statistics. -/
theorem c8_degenerate_profiling :
    (∀ (sample_size : Nat) (name : String) (df : PyDataFrame),
        df.nrows = 0 → (profile_table sample_size name df).row_count = 0)
    ∧ (∀ (sample_size : Nat) (s : Series), (∀ v ∈ s.values, v = Option.none) →
        (profile_column sample_size s).unique_count = 0
        ∧ (profile_column sample_size s).sample_values = []
        ∧ (profile_column sample_size s).min_value = Option.none
        ∧ (profile_column sample_size s).max_value = Option.none
        ∧ (profile_column sample_size s).mean_value = Option.none) := by
  constructor
  · intro ss name df h
    simpa [profile_table] using h
  · intro ss s h
    have hv : validValues s = [] := by
      simp only [validValues, List.filterMap_eq_nil_iff]
      intro v hvv
      simpa using h v hvv
    refine ⟨?_, ?_, ?_, ?_, ?_⟩ <;>
      simp [profile_column, pyNunique, firstSeen, firstSeenAux, hv]

theorem c8_degenerate_profiling_witness :
    c8Df.nrows = 0
    ∧ (∀ v ∈ c8Series.values, v = Option.none)
    ∧ (profile_table 10 "t" c8Df).row_count = 0
    ∧ (profile_column 10 c8Series).unique_count = 0
    ∧ (profile_column 10 c8Series).sample_values = []
    ∧ (profile_column 10 c8Series).min_value = Option.none := by
  refine ⟨by decide, by decide,
    c8_degenerate_profiling.1 10 "t" c8Df (by decide), ?_, ?_, ?_⟩
  · exact (c8_degenerate_profiling.2 10 c8Series (by decide)).1
  · exact (c8_degenerate_profiling.2 10 c8Series (by decide)).2.1
  · exact (c8_degenerate_profiling.2 10 c8Series (by decide)).2.2.1

/-- Faithfulness of the fuel wrapper: `runFrom` satisfies the natural
recursion of the compiled graph (attempt, then route on `should_retry`),
so the zero-fuel equation of `runFromFuel` is never exercised. -/
theorem runFrom_unfold (c : Collab) (n k : Nat) (s : AgentState) :
    runFrom c n k s =
      if (should_retry (attemptNode c n k s)).1 = "retry" then
        ((runFrom c n (k + 1) (should_retry (attemptNode c n k s)).2).1,
          planningContent c s :: (runFrom c n (k + 1) (should_retry (attemptNode c n k s)).2).2)
      else (format_answer (should_retry (attemptNode c n k s)).2, [planningContent c s]) := by
  by_cases h : (should_retry (attemptNode c n k s)).1 = "retry"
  · have hlt := (should_retry_fst_eq_retry_iff _).1 h
    have hrc := attemptNode_retry_count c n k s
    have hmr := attemptNode_max_retries c n k s
    have hfuel : (should_retry (attemptNode c n k s)).2.max_retries -
        (should_retry (attemptNode c n k s)).2.retry_count + 1 =
        s.max_retries - s.retry_count := by
      rw [should_retry_snd_of_retry _ h]
      dsimp
      omega
    rw [if_pos h]
    unfold runFrom
    rw [hfuel]
    simp only [runFromFuel]
    rw [if_pos h]
  · rw [if_neg h]
    unfold runFrom
    simp only [runFromFuel]
    rw [if_neg h]

/-- Every terminal state of the loop is a `format_answer` output: a
failure answer embeds the terminal error, a success answer embeds the
execution result. -/
theorem runFromFuel_answer_form (c : Collab) (n : Nat) :
    ∀ (fuel k : Nat) (s : AgentState),
      (((runFromFuel c n fuel k s).1).error ≠ "" →
        ((runFromFuel c n fuel k s).1).answer =
          "分析失败：" ++ ((runFromFuel c n fuel k s).1).error)
      ∧ (((runFromFuel c n fuel k s).1).error = "" →
        ((runFromFuel c n fuel k s).1).answer =
          "分析结果：\n" ++ pyStrResult ((runFromFuel c n fuel k s).1).execution_result) := by
  intro fuel
  induction fuel with
  | zero => intro k s; exact format_answer_answer s
  | succ fuel ih =>
    intro k s
    unfold runFromFuel
    dsimp only
    split_ifs with h
    · exact ih (k + 1) _
    · exact format_answer_answer _

/-- Claim C5 (amended): when the collaborator's intent reply does not
parse as JSON, `intent_routing` stores the reply after the ```json
code-fence extraction in the `intent` field — which is the raw reply
verbatim exactly when the reply carries no ```json fence — rather than
discarding the call. -/
theorem c5_parse_failure_keeps_reply_text (c : Collab) (s : AgentState)
    (h : c.jsonLoadsDumps (intentStripped c s) = Option.none) :
    (intent_routing c s).intent = intentStripped c s
    ∧ (pyIn "```json" (intentRawReply c s) = false →
        (intent_routing c s).intent = intentRawReply c s) := by
  unfold intent_routing
  rw [h]
  refine ⟨rfl, fun hnf => ?_⟩
  dsimp only
  simp [intentStripped, hnf]

theorem c5_parse_failure_keeps_reply_text_witness :
    c5PlainCollab.jsonLoadsDumps (intentStripped c5PlainCollab c5State) = Option.none
    ∧ pyIn "```json" (intentRawReply c5PlainCollab c5State) = false
    ∧ (intent_routing c5PlainCollab c5State).intent = intentRawReply c5PlainCollab c5State := by
  refine ⟨rfl, by decide, ?_⟩
  exact (c5_parse_failure_keeps_reply_text c5PlainCollab c5State rfl).2 (by decide)

/-- Claim C5 counterexample: a reply that wraps unparsable JSON in a
```json fence is NOT stored verbatim — the stored `intent` is the
extracted, stripped fence payload, not the collaborator's raw reply. -/
theorem c5_counterexample :
    c5FenceCollab.jsonLoadsDumps (intentStripped c5FenceCollab c5State) = Option.none
    ∧ (intent_routing c5FenceCollab c5State).intent = "\x7bbad"
    ∧ (intent_routing c5FenceCollab c5State).intent ≠
        intentRawReply c5FenceCollab c5State := by
  refine ⟨rfl, by decide, by decide⟩

/-- Claim C6: when the (fence-stripped) mapper reply is not well-formed
under the node/edge shape, `generate_semantic_map` surfaces a non-empty
error to its caller, returns no `SemanticMap` at all (in particular not
an empty one), and leaves the stored map unset/unchanged. -/
theorem c6_mapper_parse_failure_raises (mc : MapperCollab)
    (stored : Option SemanticMap) (profile_summary e : String)
    (h : mc.parseMap (mapperContent mc profile_summary) = Except.error e) :
    (generate_semantic_map mc stored profile_summary).1 =
      Except.error ("LLM 返回的 JSON 格式错误: " ++ e ++ "\n内容: "
        ++ mapperContent mc profile_summary)
    ∧ ("LLM 返回的 JSON 格式错误: " ++ e ++ "\n内容: "
        ++ mapperContent mc profile_summary) ≠ ""
    ∧ (∀ m : SemanticMap,
        (generate_semantic_map mc stored profile_summary).1 ≠ Except.ok m)
    ∧ (generate_semantic_map mc stored profile_summary).2 = stored := by
  unfold generate_semantic_map
  rw [h]
  refine ⟨rfl, ?_, ?_, rfl⟩
  · intro habs
    have h1 := ((string_append_eq_empty_iff _ _).1 habs).1
    have h2 := ((string_append_eq_empty_iff _ _).1 h1).1
    have h3 := ((string_append_eq_empty_iff _ _).1 h2).1
    exact absurd h3 (by decide)
  · intro m habs
    exact Except.noConfusion habs

theorem c6_mapper_parse_failure_raises_witness :
    c6Mapper.parseMap (mapperContent c6Mapper "摘要") = Except.error "ValidationError"
    ∧ (generate_semantic_map c6Mapper Option.none "摘要").2 = Option.none
    ∧ (∀ m : SemanticMap,
        (generate_semantic_map c6Mapper Option.none "摘要").1 ≠ Except.ok m) := by
  refine ⟨rfl, ?_, ?_⟩
  · exact (c6_mapper_parse_failure_raises c6Mapper Option.none "摘要" "ValidationError" rfl).2.2.2
  · exact (c6_mapper_parse_failure_raises c6Mapper Option.none "摘要" "ValidationError" rfl).2.2.1

/-- Claim C7: on the demonstration map with nodes
orders/products/customers and the single edge
orders.product_id → products.id, mentioning only "orders" keeps exactly
the orders node and zero edges, mentioning "orders" and "products" keeps
the two nodes and the edge; in general a node is kept iff some mentioned
table name occurs as a substring of its name, and an edge is kept iff
both endpoint table names are in the kept node set. -/
theorem c7_subgraph_extraction :
    get_relevant_subgraph (some demoMap) "意图" ["orders"] =
      Except.ok { nodes := [ordersNode], edges := [] }
    ∧ get_relevant_subgraph (some demoMap) "意图" ["orders", "products"] =
      Except.ok { nodes := [ordersNode, productsNode], edges := [ordersProductsEdge] }
    ∧ (∀ (m : SemanticMap) (mentioned : List String) (node : SemanticNode),
        node ∈ (relevantSubgraph m mentioned).nodes ↔
          node ∈ m.nodes ∧ ∃ t ∈ mentioned, pyIn t node.table = true)
    ∧ (∀ (m : SemanticMap) (mentioned : List String) (e : SemanticEdge),
        e ∈ (relevantSubgraph m mentioned).edges ↔
          e ∈ m.edges ∧ endpointTable e.from_col ∈ keptTables m mentioned
            ∧ endpointTable e.to_col ∈ keptTables m mentioned) := by
  refine ⟨rfl, rfl, ?_, ?_⟩
  · intro m mentioned node
    simp [relevantSubgraph, nodeMentioned, List.mem_filter, List.any_eq_true]
  · intro m mentioned e
    simp [relevantSubgraph, keptTables, List.mem_filter, Bool.and_eq_true,
      decide_eq_true_eq]

/-- Claim C1: `retry_count` starts at 0, never decreases at any step of a
run, never exceeds `max_retries`, and a run performs at most
`max_retries + 1` execution-verification attempts (the recorded planning
contents are in bijection with the attempts) before reaching
`format_answer`. -/
theorem c1_retry_budget (c : Collab) (p : ProfilerState) (stored : Option SemanticMap)
    (mr : Nat) (q : String) (n k : Nat) :
    (initialState p stored mr q).retry_count = 0
    ∧ (∀ s : AgentState, (intent_routing c s).retry_count = s.retry_count)
    ∧ (∀ s : AgentState, (attemptNode c n k s).retry_count = s.retry_count)
    ∧ (∀ s : AgentState, s.retry_count ≤ ((should_retry s).2).retry_count)
    ∧ (∀ s : AgentState, s.retry_count ≤ ((runFrom c n k s).1).retry_count)
    ∧ (∀ s : AgentState, s.retry_count ≤ s.max_retries →
        ((runFrom c n k s).1).retry_count ≤ s.max_retries)
    ∧ (∀ s : AgentState, ((runFrom c n k s).2).length ≤ s.max_retries - s.retry_count + 1)
    ∧ (analyzeRun c p stored mr q).1.retry_count ≤ mr
    ∧ ((analyzeRun c p stored mr q).2).length ≤ mr + 1 := by
  have h0 : (intent_routing c (initialState p stored mr q)).retry_count = 0 := by
    rw [intent_routing_retry_count]
    rfl
  have hm : (intent_routing c (initialState p stored mr q)).max_retries = mr := by
    rw [intent_routing_max_retries]
    rfl
  refine ⟨rfl, intent_routing_retry_count c, attemptNode_retry_count c n k,
    should_retry_retry_count_mono, ?_, ?_, ?_, ?_, ?_⟩
  · intro s
    exact runFromFuel_retry_count_mono c n _ k s
  · intro s h
    exact runFromFuel_retry_count_le c n _ k s h
  · intro s
    exact runFromFuel_length_le c n _ k s
  · unfold analyzeRun graphInvoke runFrom
    have hb := runFromFuel_retry_count_le c (totalInputRows p)
      ((intent_routing c (initialState p stored mr q)).max_retries -
        (intent_routing c (initialState p stored mr q)).retry_count + 1) 0
      (intent_routing c (initialState p stored mr q)) (by omega)
    omega
  · unfold analyzeRun graphInvoke runFrom
    have hb := runFromFuel_length_le c (totalInputRows p)
      ((intent_routing c (initialState p stored mr q)).max_retries -
        (intent_routing c (initialState p stored mr q)).retry_count + 1) 0
      (intent_routing c (initialState p stored mr q))
    omega

theorem c1_retry_budget_witness :
    c1State.retry_count ≤ c1State.max_retries
    ∧ ((runFrom c1Collab 5 0 c1State).1).retry_count ≤ c1State.max_retries := by
  refine ⟨by decide, ?_⟩
  exact (c1_retry_budget c1Collab emptyProfiler Option.none 3 "问题" 5 0).2.2.2.2.2.1
    c1State (by decide)

/-- Claim C4: `analyze` is a total function of the run's inputs — every
stage failure drives the run to `format_answer` instead of raising — and
the returned answer always embeds the terminal error when one is set
(in particular after give-up) and the execution result otherwise. -/
theorem c4_analyze_never_raises (c : Collab) (p : ProfilerState)
    (stored : Option SemanticMap) (mr : Nat) (q : String) :
    analyze c p stored mr q = (analyzeRun c p stored mr q).1.answer
    ∧ ((analyzeRun c p stored mr q).1.error ≠ "" →
        analyze c p stored mr q = "分析失败：" ++ (analyzeRun c p stored mr q).1.error)
    ∧ ((analyzeRun c p stored mr q).1.error = "" →
        analyze c p stored mr q = "分析结果：\n"
          ++ pyStrResult (analyzeRun c p stored mr q).1.execution_result) := by
  refine ⟨rfl, ?_, ?_⟩
  · intro h
    unfold analyzeRun graphInvoke runFrom at h
    unfold analyze analyzeRun graphInvoke runFrom
    exact (runFromFuel_answer_form c (totalInputRows p) _ 0 _).1 h
  · intro h
    unfold analyzeRun graphInvoke runFrom at h
    unfold analyze analyzeRun graphInvoke runFrom
    exact (runFromFuel_answer_form c (totalInputRows p) _ 0 _).2 h

theorem c4_analyze_never_raises_witness :
    (analyzeRun c4Collab emptyProfiler Option.none 0 "查询").1.error ≠ ""
    ∧ analyze c4Collab emptyProfiler Option.none 0 "查询" =
        "分析失败：" ++ (analyzeRun c4Collab emptyProfiler Option.none 0 "查询").1.error := by
  refine ⟨by decide, ?_⟩
  exact (c4_analyze_never_raises c4Collab emptyProfiler Option.none 0 "查询").2.1 (by decide)

/-- Claim C10: with no semantic map generated yet, `to_dict` returns the
empty dict instead of raising, so `analyze` silently runs the whole state
machine with an empty `semantic_map` in the initial state. -/
theorem c10_unset_map_runs_with_empty_dict (c : Collab) (p : ProfilerState)
    (mr : Nat) (q : String) :
    to_dict Option.none = MapDict.emptyDict
    ∧ (initialState p Option.none mr q).semantic_map = MapDict.emptyDict
    ∧ analyze c p Option.none mr q =
        (runFrom c (totalInputRows p) 0
          (intent_routing c (initialState p Option.none mr q))).1.answer := by
  exact ⟨rfl, rfl, rfl⟩

/-- Claim C3 (code bug): at the failing input — attempt 0's code leaves
`result` unset, attempt 1 succeeds, budget 3 — the attempt is classified
as the missing-result error and exactly one retry runs, but the retry's
`logical_planning` call sends the collaborator content identical to the
first attempt's and the updated error context appears nowhere in it. -/
theorem c3_retry_without_error_feedback :
    (attemptNode c3Collab (totalInputRows ordersProfiler) 0
      (intent_routing c3Collab (initialState ordersProfiler Option.none 3 "总收入是多少"))).error =
        missingResultMsg
    ∧ c3Run.2.length = 2
    ∧ c3Run.1.retry_count = 1
    ∧ c3Run.1.error = ""
    ∧ pyIdx c3Run.2 1 = pyIdx c3Run.2 0
    ∧ pyIn missingResultMsg (pyIdx c3Run.2 1) = false := by
  refine ⟨by decide, by decide, by decide, by decide, by decide, by decide⟩

end AutoBA
